import Mathlib

/-!
Shallow embedding of the Connection & Session Manager of the
twitch-chat-overlay repository: the chat-channel service
(`twitchChatService.js`: `connectToChannel`, `disconnectFromChannel`,
`sendMessage`, `doesChannelExist`, `ensureReadableColor`, `getLuminance`)
and the OAuth service (`oauthServer.js`: the callback handler installed by
`startOAuthServer`, `refreshAccessToken`, the tick of
`startTokenAutoRefresh`, `stopTokenAutoRefresh`, `stopOAuthServer`).

Mutable module state is modelled as explicit state records, IPC emissions to
the renderer and OAuth callback invocations as event lists, and every
outbound network interaction as an entry of a network-call trace.  The
outcome of each `fetch`/transport operation (which is external input to the
program) is a parameter of the corresponding function.
-/

namespace TwitchOverlay

/-! ### Color readability (`getLuminance`, `ensureReadableColor`) -/

/-- Value of one hexadecimal digit, `none` for a non-digit. -/
def hexDigitVal (c : Char) : Option ℕ :=
  if '0' ≤ c ∧ c ≤ '9' then some (c.toNat - '0'.toNat)
  else if 'a' ≤ c ∧ c ≤ 'f' then some (c.toNat - 'a'.toNat + 10)
  else if 'A' ≤ c ∧ c ≤ 'F' then some (c.toNat - 'A'.toNat + 10)
  else none

/-- JS `parseInt(two-char-string, 16)`: with radix 16 a leading `0x`/`0X`
prefix is stripped first, so the slice `"0x"` (or `"0X"`) leaves no digits
and is `NaN`; otherwise the longest hex-digit prefix is parsed, `none`
modelling `NaN` when the first character is not a hex digit.  (JS `parseInt`
additionally trims leading whitespace and accepts a sign; such slices are
mapped to `none` here, and every theorem below that touches a parsed color
assumes a successful parse, so only the hex-digit and `0x`/`0X` cases
arise there.) -/
def parseHexPair (c1 c2 : Char) : Option ℕ :=
  if c1 = '0' ∧ (c2 = 'x' ∨ c2 = 'X') then none
  else
    match hexDigitVal c1 with
    | none => none
    | some d1 =>
      match hexDigitVal c2 with
      | some d2 => some (16 * d1 + d2)
      | none => some d1

/-- The three `parseInt(hex.substring(..), 16)` components of `getLuminance`,
`none` when any of them is `NaN`. -/
def parseRGB (s : String) : Option (ℕ × ℕ × ℕ) :=
  let cs := s.data
  match parseHexPair (cs.getD 1 ' ') (cs.getD 2 ' '),
        parseHexPair (cs.getD 3 ' ') (cs.getD 4 ' '),
        parseHexPair (cs.getD 5 ' ') (cs.getD 6 ' ') with
  | some r, some g, some b => some (r, g, b)
  | _, _, _ => none

/-- Embedding of `getLuminance(hex)`: `0` for a falsy or non-7-character string, otherwise
the sRGB luminance `0.2126*r + 0.7152*g + 0.0722*b`; `none` models the `NaN`
produced when a channel fails to parse. -/
def getLuminance (hex : String) : Option ℚ :=
  if hex = "" ∨ hex.length ≠ 7 then some 0
  else
    (parseRGB hex).map
      (fun p => 0.2126 * (p.1 : ℚ) + 0.7152 * (p.2.1 : ℚ) + 0.0722 * (p.2.2 : ℚ))

def MIN_LUMINANCE : ℚ := 40

def FALLBACK_COLOR : String := "#AAAAAA"

/-- The 3-digit-to-6-digit hex expansion step of `ensureReadableColor`:
`#abc` becomes `#aabbcc`; anything of another length is left alone. -/
def expandColor (oc : String) : String :=
  if oc.length = 4 then
    let cs := oc.data
    String.mk ['#', cs.getD 1 ' ', cs.getD 1 ' ', cs.getD 2 ' ', cs.getD 2 ' ',
      cs.getD 3 ' ', cs.getD 3 ' ']
  else oc

/-- Embedding of `ensureReadableColor(originalColor)`: falsy input (absent or empty) gives
the fallback; otherwise the 3-digit form is expanded, its luminance computed,
and the fallback returned exactly when the luminance is below the threshold
(the `NaN` comparison `NaN < MIN_LUMINANCE` is false, so a `none` luminance
keeps the original color, as in JS). -/
def ensureReadableColor (originalColor : Option String) : String :=
  match originalColor with
  | none => FALLBACK_COLOR
  | some oc =>
    if oc = "" then FALLBACK_COLOR
    else
      match getLuminance (expandColor oc) with
      | none => oc
      | some lum => if lum < MIN_LUMINANCE then FALLBACK_COLOR else oc

/-! ### Network-call trace and fetch outcomes -/

/-- Outbound network interactions of the chat service. -/
inductive NetCall
  | helixUserLookup (channelName : String)
  | tmiConnect (channel username : String)
  | tmiSay (channel text : String)
  | tmiDisconnect
  deriving DecidableEq

/-- Parsed JSON body of a Helix `users` response: the optional `data` array
(list of user records, kept abstract as strings), or a parse failure. -/
inductive JsonBody
  | fields (dataArr : Option (List String))
  | parseError (msg : String)
  deriving DecidableEq

/-- Outcome of one `fetch` of the Helix `users` endpoint. -/
inductive FetchResult
  | response (ok : Bool) (status : ℕ) (body : JsonBody)
  | networkError (msg : String)
  deriving DecidableEq

/-- Body of the `try` block of `doesChannelExist`: a network error or a
response-parsing error is a thrown exception (`Except.error`); a non-2xx
response and an empty or absent `data` array give `false`, a non-empty
`data` array gives `true`. -/
def doesChannelExistBody (outcome : FetchResult) : Except String Bool :=
  match outcome with
  | FetchResult.networkError m => Except.error m
  | FetchResult.response ok _ body =>
    if ok then
      match body with
      | JsonBody.parseError m => Except.error m
      | JsonBody.fields none => Except.ok false
      | JsonBody.fields (some arr) => Except.ok (decide (arr.length > 0))
    else Except.ok false

/-- Embedding of `doesChannelExist(channelName, accessToken)`: guards for an empty channel
name, an empty/absent access token and an unconfigured `TWITCH_CLIENT_ID`
return `false` before any fetch; the `catch` turns any thrown error of the
body into `false`.  The second component is the network-call trace. -/
def doesChannelExist (clientIdConfigured : Bool) (channelName accessToken : String)
    (outcome : FetchResult) : Bool × List NetCall :=
  if channelName = "" then (false, [])
  else if accessToken = "" then (false, [])
  else if ¬clientIdConfigured then (false, [])
  else
    match doesChannelExistBody outcome with
    | Except.ok b => (b, [NetCall.helixUserLookup channelName])
    | Except.error _ => (false, [NetCall.helixUserLookup channelName])

/-! ### Chat service state (`twitchChatService.js` module state) -/

/-- The Electron `BrowserWindow` as far as `sendToRenderer` observes it. -/
structure Window where
  destroyed : Bool
  deriving DecidableEq

/-- A `tmi.Client` instance as constructed by `connectToChannel`. -/
structure TmiClient where
  readyState : String
  channels : List String
  username : String
  password : String
  handlersActive : Bool
  deriving DecidableEq

/-- The module-level mutable state of `twitchChatService.js`:
`twitchClient`, `currentChannel` and `mainWindow`. -/
structure ChatState where
  twitchClient : Option TmiClient
  currentChannel : Option String
  mainWindow : Option Window
  deriving DecidableEq

/-- An IPC emission to the renderer: a `connection-status` payload or a
`chat-message` payload. -/
inductive RendererEvent
  | connectionStatus (status : String) (channel : Option String)
      (error : Option String) (message : Option String) (reason : Option String)
  | chatMessage (username text color : String) (isSystem : Bool)
  deriving DecidableEq

/-- The guard of `sendToRenderer`: `mainWindow && !mainWindow.isDestroyed()`. -/
def windowLive (st : ChatState) : Bool :=
  match st.mainWindow with
  | some w => !w.destroyed
  | none => false

/-- Embedding of `sendToRenderer`: the event reaches the renderer only when the main
window exists and is not destroyed. -/
def sendToRenderer (st : ChatState) (ev : RendererEvent) : List RendererEvent :=
  if windowLive st then [ev] else []

/-- Outcome of `await twitchClient.disconnect()`. -/
inductive DisconnectOutcome
  | ok
  | errored (msg : String)
  deriving DecidableEq

/-- Outcome of `await twitchClient.connect()`. -/
inductive ConnectOutcome
  | ok
  | errored (msg : String)
  deriving DecidableEq

/-- Outcome of `await twitchClient.say(...)`. -/
inductive SayOutcome
  | ok
  | errored (msg : String)
  deriving DecidableEq

/-- Result of a chat-service operation: the new module state, the IPC events
emitted to the renderer (in order), and the network calls made (in order). -/
structure ChatResult where
  state : ChatState
  events : List RendererEvent
  net : List NetCall
  deriving DecidableEq

/-- Embedding of `disconnectFromChannel()`: a no-op without a client; otherwise all
listeners are removed, `disconnect()` is attempted (one transport call), a
`disconnected` status is emitted whether or not `disconnect()` threw, and
`currentChannel`/`twitchClient` are cleared in both branches. -/
def disconnectFromChannel (st : ChatState) (res : DisconnectOutcome) : ChatResult :=
  match st.twitchClient with
  | none => ⟨st, [], []⟩
  | some _ =>
    let ev :=
      match res with
      | DisconnectOutcome.ok =>
        RendererEvent.connectionStatus "disconnected" st.currentChannel none none
          (some "User requested disconnect")
      | DisconnectOutcome.errored m =>
        RendererEvent.connectionStatus "disconnected" st.currentChannel (some m) none
          (some "Unexpected error while disconnecting")
    ⟨{ st with twitchClient := none, currentChannel := none },
      sendToRenderer st ev, [NetCall.tmiDisconnect]⟩

/-- The `authDetails` argument of `connectToChannel` (fields may be absent,
as the OAuth username can be `null`). -/
structure AuthDetails where
  token : Option String
  username : Option String
  refreshToken : Option String
  deriving DecidableEq

/-- JS truthiness of an optional string: `null`/`undefined` and `""` are
falsy. -/
def truthy (s : Option String) : Bool :=
  match s with
  | some v => v ≠ ""
  | none => false

/-- The guard `!authDetails || !authDetails.token || !authDetails.username`. -/
def authMissing (authDetails : Option AuthDetails) : Bool :=
  match authDetails with
  | none => true
  | some d => !truthy d.token || !truthy d.username

/-- The authentication-denied exit of `connectToChannel`: an `error`
connection status followed by a red system chat message, no state change
and no network call. -/
def authDeniedResult (st : ChatState) (channelName : String) : ChatResult :=
  ⟨st,
    sendToRenderer st (RendererEvent.connectionStatus "error" (some channelName)
        (some "Authentication required to connect to chat.") none none) ++
      sendToRenderer st (RendererEvent.chatMessage "System"
        "Connection failed: Please authenticate with Twitch first." "#FF0000" true),
    []⟩

/-- External inputs consumed by one `connectToChannel` call: the outcome of a
possible teardown `disconnect()`, of the channel-existence fetch, and of the
protocol `connect()`. -/
structure ConnectEnv where
  discOutcome : DisconnectOutcome
  existsFetch : FetchResult
  connectOutcome : ConnectOutcome
  deriving DecidableEq

/-- The part of `connectToChannel` after the window and authentication
guards: teardown of a prior client when (and only when) its `readyState()`
is `"OPEN"`, the `connecting` status, the channel-existence check with its
not-found exit, then construction of the new `tmi.Client` and the protocol
`connect()` with its error exit (which nulls `twitchClient` but leaves
`currentChannel` set). -/
def connectAuthorized (clientIdConfigured : Bool) (st : ChatState)
    (channelName tok usr : String) (env : ConnectEnv) : ChatResult :=
  let step1 :=
    match st.twitchClient with
    | some c =>
      if c.readyState = "OPEN" then disconnectFromChannel st env.discOutcome
      else ⟨st, [], []⟩
    | none => ⟨st, [], []⟩
  let st1 := step1.state
  let evs1 := step1.events ++ sendToRenderer st1 (RendererEvent.connectionStatus
    "connecting" (some channelName) none (some "Verifying channel existence...") none)
  let check := doesChannelExist clientIdConfigured channelName tok env.existsFetch
  let net1 := step1.net ++ check.2
  if check.1 = false then
    ⟨st1,
      evs1 ++ sendToRenderer st1 (RendererEvent.connectionStatus "error"
        (some channelName)
        (some ("Channel \x27" ++ channelName ++ "\x27 not found. Please check the spelling."))
        none none),
      net1⟩
  else
    let lower := channelName.toLower
    let client : TmiClient :=
      { readyState := "CONNECTING", channels := [lower], username := usr,
        password := "oauth:" ++ tok, handlersActive := true }
    let st2 := { st1 with currentChannel := some lower, twitchClient := some client }
    match env.connectOutcome with
    | ConnectOutcome.ok =>
      ⟨{ st2 with twitchClient := some { client with readyState := "OPEN" } },
        evs1, net1 ++ [NetCall.tmiConnect lower usr]⟩
    | ConnectOutcome.errored m =>
      ⟨{ st2 with twitchClient := none },
        evs1 ++ sendToRenderer st2 (RendererEvent.connectionStatus "error"
          (some lower) (some m) none none),
        net1 ++ [NetCall.tmiConnect lower usr]⟩

/-- Embedding of `connectToChannel(channelName, authDetails)`: returns silently when the
service was never initialized with a window; rejects with the
authentication-denied events when `authDetails` is absent or lacks a truthy
token or username; otherwise proceeds as `connectAuthorized`. -/
def connectToChannel (clientIdConfigured : Bool) (st : ChatState)
    (channelName : String) (authDetails : Option AuthDetails)
    (env : ConnectEnv) : ChatResult :=
  match st.mainWindow with
  | none => ⟨st, [], []⟩
  | some _ =>
    match authDetails with
    | none => authDeniedResult st channelName
    | some d =>
      match d.token, d.username with
      | some tok, some usr =>
        if tok = "" ∨ usr = "" then authDeniedResult st channelName
        else connectAuthorized clientIdConfigured st channelName tok usr env
      | _, _ => authDeniedResult st channelName

/-- Result of `sendMessage`: the returned boolean, emitted IPC events, and
transport calls. -/
structure SendResult where
  success : Bool
  events : List RendererEvent
  net : List NetCall
  deriving DecidableEq

/-- The not-connected exit of `sendMessage`. -/
def sendNotConnected (st : ChatState) : SendResult :=
  ⟨false,
    sendToRenderer st (RendererEvent.chatMessage "System"
      "Cannot send message: Not connected to a channel." "#FF4500" true),
    []⟩

/-- Embedding of `sendMessage(message)`: permitted only when a client exists, its
`readyState()` is `"OPEN"` and a (truthy) current channel is set; a
transport error while saying returns `false` with a red system message,
the not-connected exit returns `false` with an orange system message. -/
def sendMessage (st : ChatState) (message : String) (outcome : SayOutcome) : SendResult :=
  match st.twitchClient, st.currentChannel with
  | some c, some ch =>
    if c.readyState = "OPEN" ∧ ch ≠ "" then
      match outcome with
      | SayOutcome.ok => ⟨true, [], [NetCall.tmiSay ch message]⟩
      | SayOutcome.errored m =>
        ⟨false,
          sendToRenderer st (RendererEvent.chatMessage "System"
            ("Error sending message: " ++ m) "#FF0000" true),
          [NetCall.tmiSay ch message]⟩
    else sendNotConnected st
  | some _, none => sendNotConnected st
  | none, _ => sendNotConnected st

/-! ### OAuth service state (`oauthServer.js` module state) -/

/-- Embedding of `currentAuthDetails`: `{ token, username, refreshToken }` (the username
can be `null` when the identity lookup returns no record). -/
structure Credential where
  token : String
  username : Option String
  refreshToken : Option String
  deriving DecidableEq

/-- The module-level mutable state of `oauthServer.js`:
`currentAuthDetails`, whether `server` exists and is listening, whether
`refreshIntervalId` is set, and whether the failure/success callbacks were
installed by `initializeOAuthServer`. -/
structure OAuthState where
  currentAuthDetails : Option Credential
  serverListening : Bool
  refreshTimerActive : Bool
  callbacksSet : Bool
  deriving DecidableEq

/-- Observable actions of the OAuth service: callback invocations and the
HTTP response written to the browser. -/
inductive OAuthEvent
  | failureCallback (reason : String)
  | successCallback (token : String) (username : Option String)
  | httpResponse (status : ℕ)
  deriving DecidableEq

/-- Outcome of a POST to the token endpoint (authorization-code or
refresh-token exchange).  `httpError` carries the status and the message
string the code builds from the parsed error body. -/
inductive TokenExchange
  | netError (msg : String)
  | httpError (status : ℕ) (msg : String)
  | success (accessToken refreshToken : String)
  deriving DecidableEq

/-- Outcome of the Helix identity (`who am I`) lookup; `success none` is a
2xx response whose `data` array is empty, leaving the username `null`. -/
inductive UserLookup
  | netError (msg : String)
  | httpError (status : ℕ) (msg : String)
  | success (login : Option String)
  deriving DecidableEq

/-- Result of an OAuth-service operation. -/
structure OAuthResult where
  state : OAuthState
  events : List OAuthEvent
  deriving DecidableEq

/-- Embedding of `stopOAuthServer()`: closes the server only when it exists and is
listening (idempotent). -/
def stopOAuthServer (st : OAuthState) : OAuthState :=
  if st.serverListening then { st with serverListening := false } else st

/-- Embedding of `stopTokenAutoRefresh()`: clears the interval only when one is set
(idempotent). -/
def stopTokenAutoRefresh (st : OAuthState) : OAuthState :=
  if st.refreshTimerActive then { st with refreshTimerActive := false } else st

/-- Invocation of `onOAuthFailureCallback` guarded by its presence. -/
def failEvent (st : OAuthState) (reason : String) : List OAuthEvent :=
  if st.callbacksSet then [OAuthEvent.failureCallback reason] else []

/-- A request hitting the callback endpoint, reduced to its `code` and
`error` query parameters. -/
structure CallbackRequest where
  code : Option String
  error : Option String
  deriving DecidableEq

/-- The `catch` branch of the code-exchange path: clear
`currentAuthDetails`, invoke the failure callback, answer the browser with
a 200 failure page, and (`finally`) stop the server. -/
def oauthProcessError (st : OAuthState) (msg : String) : OAuthResult :=
  ⟨stopOAuthServer { st with currentAuthDetails := none },
    failEvent st ("Authentication process failed: " ++ msg) ++
      [OAuthEvent.httpResponse 200]⟩

/-- The code-exchange path of the callback handler: token exchange, then the
identity lookup, then storing the credential, invoking the success callback
and answering with the success page; any thrown step lands in
`oauthProcessError`.  Both exits stop the server (`finally`). -/
def codeExchange (st : OAuthState) (tokenEnv : TokenExchange)
    (userEnv : UserLookup) : OAuthResult :=
  match tokenEnv with
  | TokenExchange.netError m =>
    oauthProcessError st ("Network error during token exchange: " ++ m)
  | TokenExchange.httpError status m =>
    oauthProcessError st ("Twitch API Error (Token): " ++ toString status ++ " - " ++ m)
  | TokenExchange.success accessToken refreshToken =>
    match userEnv with
    | UserLookup.netError m =>
      oauthProcessError st ("Network error during user info fetch: " ++ m)
    | UserLookup.httpError status m =>
      oauthProcessError st
        ("Twitch API Error (User Info): " ++ toString status ++ " - " ++ m)
    | UserLookup.success login =>
      let cred : Credential := ⟨accessToken, login, some refreshToken⟩
      ⟨stopOAuthServer { st with currentAuthDetails := some cred },
        (if st.callbacksSet then [OAuthEvent.successCallback accessToken login]
          else []) ++ [OAuthEvent.httpResponse 200]⟩

/-- The request handler installed by `startOAuthServer`: a truthy `error`
parameter clears the credential, invokes the failure callback, answers with
a 302 redirect to `about:blank` and returns (without stopping the server); a
truthy `code` parameter runs the exchange; neither parameter yields a 400
and changes nothing. -/
def handleOAuthCallback (st : OAuthState) (req : CallbackRequest)
    (tokenEnv : TokenExchange) (userEnv : UserLookup) : OAuthResult :=
  if truthy req.error then
    match req.error with
    | some e =>
      ⟨{ st with currentAuthDetails := none },
        failEvent st ("Twitch Auth Error: " ++ e ++ ". User denied access or invalid request.")
          ++ [OAuthEvent.httpResponse 302]⟩
    | none => ⟨st, [OAuthEvent.httpResponse 400]⟩
  else if truthy req.code then
    codeExchange st tokenEnv userEnv
  else
    ⟨st, [OAuthEvent.httpResponse 400]⟩

/-- The guard of the auto-refresh tick:
`currentAuthDetails && currentAuthDetails.refreshToken`. -/
def credHasRefreshToken (st : OAuthState) : Bool :=
  match st.currentAuthDetails with
  | some cred => truthy cred.refreshToken
  | none => false

/-- Result of `refreshAccessToken`: new state, events, and either the new
access token or the thrown error message. -/
structure RefreshResult where
  state : OAuthState
  events : List OAuthEvent
  result : Except String String

/-- The `catch` branch of `refreshAccessToken`: clear the credential,
invoke the failure callback with the fixed session-expired reason, and
re-throw. -/
def refreshFailure (st : OAuthState) (msg : String) : RefreshResult :=
  ⟨{ st with currentAuthDetails := none },
    failEvent st "Authentication expired. Please re-authenticate.",
    Except.error msg⟩

/-- Embedding of `refreshAccessToken()`: throws without a refresh token; on a successful
exchange replaces both the access token and the refresh token of the stored
credential (username untouched); a network error or non-2xx lands in the
`catch` branch. -/
def refreshAccessToken (st : OAuthState) (env : TokenExchange) : RefreshResult :=
  match st.currentAuthDetails with
  | none => ⟨st, [], Except.error "No refresh token available."⟩
  | some cred =>
    if ¬truthy cred.refreshToken then
      ⟨st, [], Except.error "No refresh token available."⟩
    else
      match env with
      | TokenExchange.success accessToken refreshToken =>
        let rotated := { cred with token := accessToken, refreshToken := some refreshToken }
        ⟨{ st with currentAuthDetails := some rotated }, [], Except.ok accessToken⟩
      | TokenExchange.netError m => refreshFailure st m
      | TokenExchange.httpError status m =>
        refreshFailure st
          ("Twitch API Error (Refresh Token): " ++ toString status ++ " - " ++ m)

/-- One execution of the interval callback installed by
`startTokenAutoRefresh`: without a credential holding a refresh token the
timer stops itself; otherwise `refreshAccessToken` runs, and if it threw,
the `catch` stops the timer. -/
def refreshTick (st : OAuthState) (env : TokenExchange) : OAuthResult :=
  if ¬credHasRefreshToken st then ⟨stopTokenAutoRefresh st, []⟩
  else
    let r := refreshAccessToken st env
    match r.result with
    | Except.ok _ => ⟨r.state, r.events⟩
    | Except.error _ => ⟨stopTokenAutoRefresh r.state, r.events⟩

/-! ### Predicates on network calls and concrete inputs used by theorems -/

/-- Whether a network call is a Helix channel-existence lookup. -/
def isHelixLookup : NetCall → Bool
  | NetCall.helixUserLookup _ => true
  | _ => false

/-- Whether a network call is a protocol (chat transport) connect. -/
def isTmiConnect : NetCall → Bool
  | NetCall.tmiConnect _ _ => true
  | _ => false

/-- Whether `sendMessage`'s connected-path guard holds:
a client exists with `readyState() === "OPEN"` and a truthy channel is set. -/
def sendReady (st : ChatState) : Bool :=
  match st.twitchClient, st.currentChannel with
  | some c, some ch => c.readyState = "OPEN" && ch ≠ ""
  | _, _ => false

/-- A disconnected chat-service state holding a live window. -/
def c1State : ChatState := ⟨none, none, some ⟨false⟩⟩

/-- A connect environment whose existence fetch fails on the network. -/
def c1Env : ConnectEnv :=
  ⟨DisconnectOutcome.ok, FetchResult.networkError "down", ConnectOutcome.ok⟩

/-- A chat-service state whose client is still connecting (readyState is not
`"OPEN"`). -/
def c6State : ChatState :=
  ⟨some ⟨"CONNECTING", ["oldchan"], "user", "oauth:tok", true⟩, some "oldchan",
    some ⟨false⟩⟩

/-- A chat-service state with an open client on a live window. -/
def c6OpenState : ChatState :=
  ⟨some ⟨"OPEN", ["oldchan"], "user", "oauth:tok", true⟩, some "oldchan",
    some ⟨false⟩⟩

/-- A connect environment where the channel exists and the protocol connect
succeeds. -/
def c6Env : ConnectEnv :=
  ⟨DisconnectOutcome.ok,
    FetchResult.response true 200 (JsonBody.fields (some ["newchan"])),
    ConnectOutcome.ok⟩

/-- Valid authentication details. -/
def c6Auth : AuthDetails := ⟨some "tok", some "user", none⟩

/-- A connected chat-service state (open client, channel set, live window). -/
def c5ConnState : ChatState :=
  ⟨some ⟨"OPEN", ["chan"], "user", "oauth:tok", true⟩, some "chan", some ⟨false⟩⟩

/-- A chat-service state with no client at all (not connected). -/
def c5DiscState : ChatState := ⟨none, none, some ⟨false⟩⟩

/-- A disconnected chat-service state with a live window, for the not-found
scenario. -/
def c7State : ChatState := ⟨none, none, some ⟨false⟩⟩

/-- A connect environment whose existence fetch reports an empty `data`
array (channel does not exist). -/
def c7Env : ConnectEnv :=
  ⟨DisconnectOutcome.ok, FetchResult.response true 200 (JsonBody.fields (some [])),
    ConnectOutcome.ok⟩

/-- An OAuth state with a listening callback server and installed callbacks. -/
def c2State : OAuthState := ⟨none, true, false, true⟩

/-- An OAuth state holding a credential with a refresh token, a running
refresh timer and installed callbacks. -/
def c4State : OAuthState :=
  ⟨some ⟨"tokenA", some "alice", some "refreshA"⟩, false, true, true⟩

/-- An OAuth state holding a credential with a refresh token, used for the
refresh-exchange scenarios. -/
def c8State : OAuthState :=
  ⟨some ⟨"tokenA", some "alice", some "refreshA"⟩, false, true, true⟩

/-! ### Theorems -/

/-- C9: `disconnectFromChannel` is idempotent: when no client exists
(`twitchClient` is `null`) it changes no state, emits no status or chat
event, and makes no transport call, so a second disconnect after a completed
disconnect produces no duplicate `disconnected` event. -/
theorem disconnect_idempotent (st : ChatState) (res : DisconnectOutcome)
    (h : st.twitchClient = none) :
    disconnectFromChannel st res = ⟨st, [], []⟩ := by
  unfold disconnectFromChannel
  rw [h]

theorem disconnect_idempotent_witness :
    (⟨none, none, some ⟨false⟩⟩ : ChatState).twitchClient = none ∧
    disconnectFromChannel ⟨none, none, some ⟨false⟩⟩ DisconnectOutcome.ok =
      ⟨⟨none, none, some ⟨false⟩⟩, [], []⟩ :=
  ⟨rfl, disconnect_idempotent _ _ rfl⟩

/-- C10: `doesChannelExist` is total and never throws: it returns `true`
exactly when the name, token and client id are all present and the fetch
came back 2xx with a non-empty `data` array; in every other case — empty
name, absent token, unconfigured client id, non-2xx response, network or
parsing error — it returns `false`, so a network failure is
indistinguishable to the caller from a non-existent channel (second
conjunct). -/
theorem doesChannelExist_total (clientIdConfigured : Bool) (name tok : String)
    (outcome : FetchResult) :
    ((doesChannelExist clientIdConfigured name tok outcome).1 = true ↔
      (name ≠ "" ∧ tok ≠ "" ∧ clientIdConfigured = true ∧
        ∃ status arr,
          outcome = FetchResult.response true status (JsonBody.fields (some arr)) ∧
          arr ≠ [])) ∧
    (∀ m status,
      (doesChannelExist clientIdConfigured name tok (FetchResult.networkError m)).1 =
        (doesChannelExist clientIdConfigured name tok
          (FetchResult.response true status (JsonBody.fields (some [])))).1) := by
  constructor
  · by_cases h1 : name = ""
    · simp [doesChannelExist, h1]
    · by_cases h2 : tok = ""
      · simp [doesChannelExist, h1, h2]
      · by_cases h3 : clientIdConfigured = true
        · cases outcome with
          | networkError m =>
            simp [doesChannelExist, doesChannelExistBody, h1, h2, h3]
          | response ok status body =>
            cases ok with
            | false => simp [doesChannelExist, doesChannelExistBody, h1, h2, h3]
            | true =>
              cases body with
              | parseError m =>
                simp [doesChannelExist, doesChannelExistBody, h1, h2, h3]
              | fields dataArr =>
                cases dataArr with
                | none => simp [doesChannelExist, doesChannelExistBody, h1, h2, h3]
                | some arr =>
                  simp [doesChannelExist, doesChannelExistBody, h1, h2, h3,
                    List.length_pos]
                  constructor
                  · intro h
                    exact ⟨status, arr, ⟨rfl, rfl⟩, h⟩
                  · rintro ⟨s, a, ⟨hs, ha⟩, hne⟩
                    subst ha
                    exact hne
        · simp only [Bool.not_eq_true] at h3
          simp [doesChannelExist, h1, h2, h3]
  · intro m status
    unfold doesChannelExist doesChannelExistBody
    split_ifs <;> simp

/-- C3: `ensureReadableColor` returns the fixed fallback `"#AAAAAA"` whenever
the luminance `0.2126*R + 0.7152*G + 0.0722*B` of the 6-digit hex expansion
of the input is below the threshold `40`, returns the original color
unchanged whenever that luminance is at or above `40`, and maps an absent
color to the fallback. -/
theorem ensureReadableColor_threshold (oc : String) (r g b : ℕ)
    (hparse : parseRGB (expandColor oc) = some (r, g, b))
    (hlen : (expandColor oc).length = 7) :
    (0.2126 * (r : ℚ) + 0.7152 * (g : ℚ) + 0.0722 * (b : ℚ) < 40 →
      ensureReadableColor (some oc) = FALLBACK_COLOR) ∧
    (40 ≤ 0.2126 * (r : ℚ) + 0.7152 * (g : ℚ) + 0.0722 * (b : ℚ) →
      ensureReadableColor (some oc) = oc) ∧
    ensureReadableColor none = FALLBACK_COLOR := by
  have hoc : ¬(oc = "") := by
    intro h
    rw [h] at hlen
    simp [expandColor] at hlen
  have hhex : ¬(expandColor oc = "" ∨ (expandColor oc).length ≠ 7) := by
    push_neg
    refine ⟨?_, hlen⟩
    intro h
    rw [h] at hlen
    simp at hlen
  have hlum : getLuminance (expandColor oc) =
      some (0.2126 * (r : ℚ) + 0.7152 * (g : ℚ) + 0.0722 * (b : ℚ)) := by
    unfold getLuminance
    rw [if_neg hhex, hparse]
    rfl
  refine ⟨?_, ?_, rfl⟩
  · intro hlt
    simp only [ensureReadableColor, if_neg hoc, hlum]
    rw [if_pos]
    exact hlt
  · intro hge
    simp only [ensureReadableColor, if_neg hoc, hlum]
    rw [if_neg]
    simp only [MIN_LUMINANCE, not_lt]
    exact hge

theorem ensureReadableColor_threshold_witness :
    parseRGB (expandColor "#000000") = some (0, 0, 0) ∧
    (expandColor "#000000").length = 7 ∧
    ensureReadableColor (some "#000000") = FALLBACK_COLOR :=
  ⟨by decide, by decide,
    (ensureReadableColor_threshold "#000000" 0 0 0 (by decide) (by decide)).1
      (by norm_num)⟩

/-- C1: when `authDetails` is absent or lacks a truthy token or username,
`connectToChannel` leaves the state untouched (no tmi client is constructed)
and makes no network call at all — no channel-existence lookup and no
protocol connect — and, whenever the service holds a live main window, it
emits exactly the `error` connection status with reason
`Authentication required to connect to chat.` followed by the system chat
message, then returns. -/
theorem connect_requires_auth (clientIdConfigured : Bool) (st : ChatState)
    (channelName : String) (authDetails : Option AuthDetails) (env : ConnectEnv)
    (ha : authMissing authDetails = true) :
    (connectToChannel clientIdConfigured st channelName authDetails env).state = st ∧
    (connectToChannel clientIdConfigured st channelName authDetails env).net = [] ∧
    (windowLive st = true →
      (connectToChannel clientIdConfigured st channelName authDetails env).events =
        [RendererEvent.connectionStatus "error" (some channelName)
            (some "Authentication required to connect to chat.") none none,
          RendererEvent.chatMessage "System"
            "Connection failed: Please authenticate with Twitch first." "#FF0000" true]) := by
  cases hmw : st.mainWindow with
  | none =>
    refine ⟨?_, ?_, ?_⟩ <;> simp [connectToChannel, hmw, windowLive]
  | some w =>
    have hden : connectToChannel clientIdConfigured st channelName authDetails env =
        authDeniedResult st channelName := by
      cases authDetails with
      | none => simp [connectToChannel, hmw]
      | some d =>
        cases htok : d.token with
        | none => simp [connectToChannel, hmw, htok]
        | some tok =>
          cases husr : d.username with
          | none => simp [connectToChannel, hmw, htok, husr]
          | some usr =>
            have hempty : tok = "" ∨ usr = "" := by
              simp [authMissing, truthy, htok, husr] at ha
              tauto
            simp [connectToChannel, hmw, htok, husr, if_pos hempty]
    rw [hden]
    refine ⟨rfl, rfl, fun hw => ?_⟩
    simp [authDeniedResult, sendToRenderer, hw]

theorem connect_requires_auth_witness :
    authMissing none = true ∧
    windowLive c1State = true ∧
    (connectToChannel true c1State "somechannel" none c1Env).state = c1State ∧
    (connectToChannel true c1State "somechannel" none c1Env).net = [] ∧
    (connectToChannel true c1State "somechannel" none c1Env).events =
      [RendererEvent.connectionStatus "error" (some "somechannel")
          (some "Authentication required to connect to chat.") none none,
        RendererEvent.chatMessage "System"
          "Connection failed: Please authenticate with Twitch first." "#FF0000" true] :=
  ⟨rfl, rfl,
    (connect_requires_auth true c1State "somechannel" none c1Env rfl).1,
    (connect_requires_auth true c1State "somechannel" none c1Env rfl).2.1,
    (connect_requires_auth true c1State "somechannel" none c1Env rfl).2.2 rfl⟩

/-- Helper: the channel-existence check performs at most one Helix lookup
(an empty trace when a guard short-circuits, one lookup otherwise). -/
theorem doesChannelExist_net (cfg : Bool) (name tok : String) (o : FetchResult) :
    (doesChannelExist cfg name tok o).2 = [] ∨
    (doesChannelExist cfg name tok o).2 = [NetCall.helixUserLookup name] := by
  unfold doesChannelExist
  split_ifs <;> try exact Or.inl rfl
  cases h : doesChannelExistBody o <;> simp

/-- C7: when the channel-existence check returns `false`, `connectToChannel`
emits the `error` status whose reason says the channel was not found, makes
at most one existence lookup (the attempt is terminal, never retried), never
attempts a protocol connection, and constructs no new tmi client (the stored
client is either cleared by a prior teardown or left exactly as it was). -/
theorem connect_channel_not_found (clientIdConfigured : Bool) (st : ChatState)
    (channelName tok usr : String) (rt : Option String) (env : ConnectEnv)
    (hw : windowLive st = true) (ht : ¬tok = "") (hu : ¬usr = "")
    (hex : (doesChannelExist clientIdConfigured channelName tok env.existsFetch).1 = false) :
    RendererEvent.connectionStatus "error" (some channelName)
        (some ("Channel \x27" ++ channelName ++ "\x27 not found. Please check the spelling."))
        none none ∈
      (connectToChannel clientIdConfigured st channelName
        (some ⟨some tok, some usr, rt⟩) env).events ∧
    List.countP isHelixLookup
        (connectToChannel clientIdConfigured st channelName
          (some ⟨some tok, some usr, rt⟩) env).net ≤ 1 ∧
    List.filter isTmiConnect
        (connectToChannel clientIdConfigured st channelName
          (some ⟨some tok, some usr, rt⟩) env).net = [] ∧
    ((connectToChannel clientIdConfigured st channelName
        (some ⟨some tok, some usr, rt⟩) env).state.twitchClient = none ∨
      (connectToChannel clientIdConfigured st channelName
        (some ⟨some tok, some usr, rt⟩) env).state.twitchClient = st.twitchClient) := by
  obtain ⟨w, hmw⟩ : ∃ w, st.mainWindow = some w := by
    cases h : st.mainWindow with
    | none => simp [windowLive, h] at hw
    | some w => exact ⟨w, rfl⟩
  have hwd : w.destroyed = false := by
    simpa [windowLive, hmw] using hw
  have hR : connectToChannel clientIdConfigured st channelName
      (some ⟨some tok, some usr, rt⟩) env =
      connectAuthorized clientIdConfigured st channelName tok usr env := by
    simp [connectToChannel, hmw, ht, hu]
  rw [hR]
  unfold connectAuthorized
  rcases doesChannelExist_net clientIdConfigured channelName tok env.existsFetch with
    hnet | hnet
  all_goals cases hcl : st.twitchClient with
  | none =>
    refine ⟨?_, ?_, ?_, Or.inr ?_⟩ <;>
      simp [hcl, hex, hnet, sendToRenderer, windowLive, hmw, hwd,
        isHelixLookup, isTmiConnect]
  | some c =>
    by_cases hrs : c.readyState = "OPEN"
    · cases hdo : env.discOutcome with
      | ok =>
        refine ⟨?_, ?_, ?_, Or.inl ?_⟩ <;>
          simp [hcl, hrs, hdo, hex, hnet, disconnectFromChannel, sendToRenderer,
            windowLive, hmw, hwd, isHelixLookup, isTmiConnect]
      | errored m =>
        refine ⟨?_, ?_, ?_, Or.inl ?_⟩ <;>
          simp [hcl, hrs, hdo, hex, hnet, disconnectFromChannel, sendToRenderer,
            windowLive, hmw, hwd, isHelixLookup, isTmiConnect]
    · refine ⟨?_, ?_, ?_, Or.inr ?_⟩ <;>
        simp [hcl, hrs, hex, hnet, sendToRenderer, windowLive, hmw, hwd,
          isHelixLookup, isTmiConnect]

theorem connect_channel_not_found_witness :
    windowLive c7State = true ∧ ¬"tok" = "" ∧ ¬"user" = "" ∧
    (doesChannelExist true "ghostchannel" "tok" c7Env.existsFetch).1 = false ∧
    RendererEvent.connectionStatus "error" (some "ghostchannel")
        (some ("Channel \x27" ++ "ghostchannel" ++ "\x27 not found. Please check the spelling."))
        none none ∈
      (connectToChannel true c7State "ghostchannel"
        (some ⟨some "tok", some "user", none⟩) c7Env).events :=
  ⟨rfl, by decide, by decide, rfl,
    (connect_channel_not_found true c7State "ghostchannel" "tok" "user" none c7Env
      rfl (by decide) (by decide) rfl).1⟩

/-- C6 counterexample: a `connectToChannel` call made while a prior client
exists in the `CONNECTING` phase (transport state not `OPEN`) does not
disconnect that prior session — no transport close is issued — yet creates
a new client replacing it.  This refutes the claim that any prior client,
including one still connecting, is fully disconnected first. -/
theorem connect_teardown_counterexample :
    NetCall.tmiDisconnect ∉
      (connectToChannel true c6State "NewChan" (some c6Auth) c6Env).net ∧
    (connectToChannel true c6State "NewChan" (some c6Auth) c6Env).state.twitchClient ≠
      c6State.twitchClient := by
  decide

/-- C6 amended: `connectToChannel` tears down a prior session before
creating the new client only when the prior client's transport state is
`OPEN` — in that case the transport close is the first network action; a
prior client whose transport state is anything else (e.g. still connecting)
is never disconnected and is simply replaced. -/
theorem connect_teardown_only_open (clientIdConfigured : Bool) (st : ChatState)
    (channelName tok usr : String) (rt : Option String) (env : ConnectEnv)
    (c : TmiClient) (hw : windowLive st = true) (ht : ¬tok = "") (hu : ¬usr = "")
    (hcl : st.twitchClient = some c) :
    (c.readyState = "OPEN" →
      (connectToChannel clientIdConfigured st channelName
        (some ⟨some tok, some usr, rt⟩) env).net.head? = some NetCall.tmiDisconnect) ∧
    (¬c.readyState = "OPEN" →
      NetCall.tmiDisconnect ∉
        (connectToChannel clientIdConfigured st channelName
          (some ⟨some tok, some usr, rt⟩) env).net) := by
  obtain ⟨w, hmw⟩ : ∃ w, st.mainWindow = some w := by
    cases h : st.mainWindow with
    | none => simp [windowLive, h] at hw
    | some w => exact ⟨w, rfl⟩
  have hwd : w.destroyed = false := by
    simpa [windowLive, hmw] using hw
  have hR : connectToChannel clientIdConfigured st channelName
      (some ⟨some tok, some usr, rt⟩) env =
      connectAuthorized clientIdConfigured st channelName tok usr env := by
    simp [connectToChannel, hmw, ht, hu]
  rw [hR]
  unfold connectAuthorized
  rcases doesChannelExist_net clientIdConfigured channelName tok env.existsFetch with
    hnet | hnet
  all_goals constructor
  all_goals intro hrs
  all_goals
    by_cases hchk :
      (doesChannelExist clientIdConfigured channelName tok env.existsFetch).1 = false
  all_goals cases hdo : env.discOutcome
  all_goals cases hco : env.connectOutcome
  all_goals
    simp [hcl, hrs, hdo, hco, hchk, hnet, disconnectFromChannel, sendToRenderer,
      windowLive, hmw, hwd, isHelixLookup, isTmiConnect]

theorem connect_teardown_only_open_witness :
    windowLive c6OpenState = true ∧ ¬"tok" = "" ∧ ¬"user" = "" ∧
    c6OpenState.twitchClient = some ⟨"OPEN", ["oldchan"], "user", "oauth:tok", true⟩ ∧
    (connectToChannel true c6OpenState "NewChan" (some c6Auth) c6Env).net.head? =
      some NetCall.tmiDisconnect :=
  ⟨rfl, by decide, by decide, rfl,
    (connect_teardown_only_open true c6OpenState "NewChan" "tok" "user" none c6Env
      ⟨"OPEN", ["oldchan"], "user", "oauth:tok", true⟩ rfl (by decide) (by decide)
      rfl).1 rfl⟩

/-- C5 counterexample: the failure result returned on a transport error
during sending equals the failure result returned when not connected — both
are the boolean `false` — so the returned result does not let the caller
distinguish the two cases (the IPC caller indeed shows one generic message
for any `false`). -/
theorem send_failure_counterexample :
    (sendMessage c5ConnState "hi" (SayOutcome.errored "transport error")).success =
      (sendMessage c5DiscState "hi" SayOutcome.ok).success ∧
    (sendMessage c5ConnState "hi" (SayOutcome.errored "transport error")).success =
      false := by
  decide

/-- C5 amended: `sendMessage` succeeds (returns `true`) only when the client
exists, its readyState is `OPEN` and a current channel is set; both failure
cases return the same value `false`, and they are distinguishable only
through the system chat message emitted to the renderer: a transport error
emits `Error sending message: …` in red, the not-connected case emits
`Cannot send message: Not connected to a channel.` in orange. -/
theorem sendMessage_failure_modes (st : ChatState) (message : String)
    (hw : windowLive st = true) :
    (∀ outcome, (sendMessage st message outcome).success = true →
      sendReady st = true ∧ outcome = SayOutcome.ok) ∧
    (∀ m, sendReady st = true →
      sendMessage st message (SayOutcome.errored m) =
        ⟨false,
          [RendererEvent.chatMessage "System" ("Error sending message: " ++ m)
            "#FF0000" true],
          [NetCall.tmiSay (st.currentChannel.getD "") message]⟩) ∧
    (sendReady st = false → ∀ outcome,
      sendMessage st message outcome =
        ⟨false,
          [RendererEvent.chatMessage "System"
            "Cannot send message: Not connected to a channel." "#FF4500" true],
          []⟩) := by
  refine ⟨?_, ?_, ?_⟩
  · intro outcome hsucc
    cases hcl : st.twitchClient with
    | none => simp [sendMessage, sendNotConnected, hcl] at hsucc
    | some c =>
      cases hch : st.currentChannel with
      | none => simp [sendMessage, sendNotConnected, hcl, hch] at hsucc
      | some ch =>
        by_cases hg : c.readyState = "OPEN" ∧ ch ≠ ""
        · cases outcome with
          | ok =>
            refine ⟨?_, rfl⟩
            simp [sendReady, hcl, hch, hg.1, hg.2]
          | errored m =>
            simp [sendMessage, hcl, hch, hg.1, hg.2] at hsucc
        · simp [sendMessage, sendNotConnected, hcl, hch, hg] at hsucc
  · intro m hready
    cases hcl : st.twitchClient with
    | none => simp [sendReady, hcl] at hready
    | some c =>
      cases hch : st.currentChannel with
      | none => simp [sendReady, hcl, hch] at hready
      | some ch =>
        simp [sendReady, hcl, hch] at hready
        simp [sendMessage, hcl, hch, hready.1, hready.2, sendToRenderer, hw]
  · intro hnotready outcome
    cases hcl : st.twitchClient with
    | none => simp [sendMessage, sendNotConnected, hcl, sendToRenderer, hw]
    | some c =>
      cases hch : st.currentChannel with
      | none => simp [sendMessage, sendNotConnected, hcl, hch, sendToRenderer, hw]
      | some ch =>
        simp [sendReady, hcl, hch] at hnotready
        have hcond : ¬(c.readyState = "OPEN" ∧ ch ≠ "") := by
          intro hc
          exact hc.2 (hnotready hc.1)
        simp [sendMessage, sendNotConnected, hcl, hch, hcond, sendToRenderer, hw]

theorem sendMessage_failure_modes_witness :
    windowLive c5ConnState = true ∧ sendReady c5ConnState = true ∧
    sendMessage c5ConnState "hello" (SayOutcome.errored "boom") =
      ⟨false,
        [RendererEvent.chatMessage "System" ("Error sending message: " ++ "boom")
          "#FF0000" true],
        [NetCall.tmiSay (c5ConnState.currentChannel.getD "") "hello"]⟩ :=
  ⟨rfl, rfl, (sendMessage_failure_modes c5ConnState "hello" rfl).2.1 "boom" rfl⟩

/-- C2 counterexample: after the callback handler processes a request
carrying `error=access_denied`, the server is still listening — the error
branch returns without stopping the listener, so later callback requests
are still accepted.  This refutes the claim that the handler then stops the
listener. -/
theorem oauth_error_keeps_listening_counterexample :
    (handleOAuthCallback c2State ⟨none, some "access_denied"⟩
      (TokenExchange.netError "unused") (UserLookup.netError "unused")).state.serverListening
      = true := by
  decide

/-- C2 amended: on a request carrying a truthy `error` parameter the handler
clears the stored credential, invokes the failure callback exactly once with
a reason containing the provider-supplied error, responds to the browser with
a 302 redirect, and returns with the listener state untouched (the listener
is stopped only on the code-exchange path). -/
theorem oauth_error_branch (st : OAuthState) (e : String) (code : Option String)
    (tokenEnv : TokenExchange) (userEnv : UserLookup)
    (he : ¬e = "") (hc : st.callbacksSet = true) :
    handleOAuthCallback st ⟨code, some e⟩ tokenEnv userEnv =
      ⟨{ st with currentAuthDetails := none },
        [OAuthEvent.failureCallback
            ("Twitch Auth Error: " ++ e ++ ". User denied access or invalid request."),
          OAuthEvent.httpResponse 302]⟩ := by
  simp [handleOAuthCallback, truthy, he, failEvent, hc]

theorem oauth_error_branch_witness :
    ¬"access_denied" = "" ∧ c2State.callbacksSet = true ∧
    handleOAuthCallback c2State ⟨none, some "access_denied"⟩
        (TokenExchange.netError "unused") (UserLookup.netError "unused") =
      ⟨{ c2State with currentAuthDetails := none },
        [OAuthEvent.failureCallback
            ("Twitch Auth Error: " ++ "access_denied" ++
              ". User denied access or invalid request."),
          OAuthEvent.httpResponse 302]⟩ :=
  ⟨by decide, rfl,
    oauth_error_branch c2State "access_denied" none (TokenExchange.netError "unused")
      (UserLookup.netError "unused") (by decide) rfl⟩

/-- C4 counterexample: after a scheduled refresh tick fails with a transient
network failure, the recurring timer is no longer running
(`refreshIntervalId` is cleared) and the credential needed for any retry is
gone — so the refresh is not retried on a next scheduled tick, refuting the
claim that the still-running timer retries it. -/
theorem refresh_retry_counterexample :
    (refreshTick c4State (TokenExchange.netError "socket hang up")).state.refreshTimerActive
      = false ∧
    (refreshTick c4State (TokenExchange.netError "socket hang up")).state.currentAuthDetails
      = none := by
  decide

/-- C4 amended: when a scheduled refresh tick fails with a transient network
failure there is no immediate retry — but also no retry on a later tick: the
tick clears the credential, invokes the session-expired failure callback, and
stops the recurring timer. -/
theorem refresh_tick_network_failure (st : OAuthState) (m : String)
    (hr : credHasRefreshToken st = true) (hc : st.callbacksSet = true)
    (ht : st.refreshTimerActive = true) :
    refreshTick st (TokenExchange.netError m) =
      ⟨{ st with currentAuthDetails := none, refreshTimerActive := false },
        [OAuthEvent.failureCallback "Authentication expired. Please re-authenticate."]⟩ := by
  cases hcred : st.currentAuthDetails with
  | none => simp [credHasRefreshToken, hcred] at hr
  | some cred =>
    simp only [credHasRefreshToken, hcred] at hr
    simp [refreshTick, credHasRefreshToken, hcred, hr, refreshAccessToken,
      refreshFailure, failEvent, hc, stopTokenAutoRefresh, ht]

theorem refresh_tick_network_failure_witness :
    credHasRefreshToken c4State = true ∧ c4State.callbacksSet = true ∧
    c4State.refreshTimerActive = true ∧
    refreshTick c4State (TokenExchange.netError "socket hang up") =
      ⟨{ c4State with currentAuthDetails := none, refreshTimerActive := false },
        [OAuthEvent.failureCallback "Authentication expired. Please re-authenticate."]⟩ :=
  ⟨rfl, rfl, rfl, refresh_tick_network_failure c4State "socket hang up" rfl rfl rfl⟩

/-- C8: when the refresh-token exchange of a scheduled tick fails — non-2xx
response or network error — the stored credential is cleared, the recurring
timer is stopped, and the session-expired failure callback is invoked; on
success both the access token and the refresh token are replaced with the
pair from that exchange (username untouched) and the timer keeps running. -/
theorem refresh_exchange_spec (st : OAuthState) (cred : Credential)
    (hcred : st.currentAuthDetails = some cred)
    (hrt : truthy cred.refreshToken = true)
    (hc : st.callbacksSet = true) (ht : st.refreshTimerActive = true) :
    (∀ m, refreshTick st (TokenExchange.netError m) =
      ⟨{ st with currentAuthDetails := none, refreshTimerActive := false },
        [OAuthEvent.failureCallback "Authentication expired. Please re-authenticate."]⟩) ∧
    (∀ status m, refreshTick st (TokenExchange.httpError status m) =
      ⟨{ st with currentAuthDetails := none, refreshTimerActive := false },
        [OAuthEvent.failureCallback "Authentication expired. Please re-authenticate."]⟩) ∧
    (∀ a r, refreshTick st (TokenExchange.success a r) =
      ⟨{ st with currentAuthDetails := some (Credential.mk a cred.username (some r)) },
        []⟩) := by
  refine ⟨?_, ?_, ?_⟩
  · intro m
    simp [refreshTick, credHasRefreshToken, hcred, hrt, refreshAccessToken,
      refreshFailure, failEvent, hc, stopTokenAutoRefresh, ht]
  · intro status m
    simp [refreshTick, credHasRefreshToken, hcred, hrt, refreshAccessToken,
      refreshFailure, failEvent, hc, stopTokenAutoRefresh, ht]
  · intro a r
    simp [refreshTick, credHasRefreshToken, hcred, hrt, refreshAccessToken]

theorem refresh_exchange_spec_witness :
    c8State.currentAuthDetails = some ⟨"tokenA", some "alice", some "refreshA"⟩ ∧
    truthy (some "refreshA") = true ∧ c8State.callbacksSet = true ∧
    c8State.refreshTimerActive = true ∧
    refreshTick c8State (TokenExchange.success "tokenB" "refreshB") =
      ⟨{ c8State with currentAuthDetails := some (Credential.mk "tokenB" (some "alice") (some "refreshB")) },
        []⟩ :=
  ⟨rfl, by decide, rfl, rfl,
    (refresh_exchange_spec c8State ⟨"tokenA", some "alice", some "refreshA"⟩ rfl
      (by decide) rfl rfl).2.2 "tokenB" "refreshB"⟩

end TwitchOverlay
